import Mathlib

/-!
Shallow embedding of the NESendo GUI emulation subsystems
(source: NESendo/app/gui.py): the emulation scheduler thread, the
action encoder, the audio streaming pipeline, and the state snapshot
store, together with theorems settling the frozen claims about them.

Modelling conventions:
- Python floats (frame durations, fastforward multipliers, audio
  samples) are modelled as rationals.
- Timestamps from time.time() are modelled as abstract clock readings
  of type Nat; no claim depends on timestamp arithmetic.
- Python dicts keyed by slot number or filename are modelled as
  association lists with a set operation that removes the old binding.
- Qt message boxes and raised-then-caught exceptions are modelled as an
  Option String result (some message when a warning or error dialog is
  surfaced to the user, none on silent success).
- The file system is modelled as an association list from filename to
  file content. The source writes state files with open(filename, wb)
  followed by pickle.dump: the open truncates the file as soon as it
  succeeds, so a failing write is modelled by an outcome parameter
  that distinguishes a raise in the open itself (file untouched) from
  a raise during the dump (file left truncated).
-/

namespace NESendo

/-- Emulator-core state visible through the env attributes consumed by
the GUI: working RAM image, screen buffer, the two controller states,
and the terminal flag. Pixel and byte contents are modelled as lists
of naturals. -/
structure CoreState where
  ram : List Nat
  screen : List Nat
  controllers1 : List Nat
  controllers2 : List Nat
  done : Bool
deriving DecidableEq, Repr

/-- Modelled from the spec: the emulator core NESEnv is imported from
NESendo.nes_env, which is not part of the three source files; per the
spec's external-interface contract, the core exposes readable screen,
ram, controllers and done attributes, a native backup primitive that
freezes the full internal state into a single backup slot keyed to the
handle, and a native restore primitive that restores that backup. -/
structure NESEnv where
  core : CoreState
  backup : Option CoreState
deriving DecidableEq, Repr

/-- Modelled from the spec: the core's native backup primitive freezes
the current full internal state into the single backup slot. -/
def NESEnv._backup (e : NESEnv) : NESEnv :=
  { e with backup := some e.core }

/-- Modelled from the spec: the core's native restore primitive restores
the single backup, full fidelity; with no backup taken it leaves the
state alone. -/
def NESEnv._restore (e : NESEnv) : NESEnv :=
  { e with core := e.backup.getD e.core }

/-- Models the core advancing between GUI operations: stepping the
external emulator mutates the live core state while leaving the native
backup slot alone. -/
def NESEnv.withCore (e : NESEnv) (c : CoreState) : NESEnv :=
  { e with core := c }

/-- One captured state record, as built by capture_emulator_state:
keys rom_path, screen, ram, controllers, done, timestamp. -/
structure StateData where
  rom_path : Option String
  screen : Option (List Nat)
  ram : Option (List Nat)
  controllers : Option (List Nat × List Nat)
  done : Bool
  timestamp : Nat
deriving DecidableEq, Repr

/-- The serialized record written by save_state_to_file: the screen is
dropped, and a version tag is added. -/
structure SerializableState where
  rom_path : Option String
  ram : Option (List Nat)
  controllers : Option (List Nat × List Nat)
  done : Bool
  timestamp : Nat
  version : String
deriving DecidableEq, Repr

/-- Content of a state file on disk: either a fully written serialized
record, or the truncated or partially written bytes left behind when
pickle.dump raises after open with mode wb has already truncated the
file. -/
inductive FileContent where
  | record : SerializableState → FileContent
  | truncated : FileContent
deriving DecidableEq, Repr

/-- Outcome of the file write in save_state_to_file (gui.py lines
1609-1610): the file is opened with mode wb, which truncates it the
moment the open succeeds, and pickle.dump then writes the record. The
write can succeed, raise during the dump with the file already
truncated, or raise in the open itself with the file untouched. -/
inductive WriteOutcome where
  | ok : WriteOutcome
  | dumpRaises : WriteOutcome
  | openRaises : WriteOutcome
deriving DecidableEq, Repr

/-- One thread-join call issued while stopping the emulation thread,
recording whether the underlying QThread wait carries a timeout
(bounded, in milliseconds) or blocks until the thread exits. -/
inductive JoinCall where
  | unbounded : JoinCall
  | bounded : Nat → JoinCall
deriving DecidableEq, Repr

/-- True when the join call carries a timeout. -/
def JoinCall.isBounded : JoinCall → Bool
  | .unbounded => false
  | .bounded _ => true

/-- The EmulationThread state: its constructor arguments and the
mutable fields of the emulation loop (gui.py lines 35-50). The QThread
alive flag is identified with the cooperative running flag. -/
structure EmulThread where
  rom_path : String
  env : Option NESEnv
  running : Bool
  paused : Bool
  fastforward : Bool
  fastforward_speed : ℚ
  current_action : Nat
  target_fps : Nat
  frame_duration : ℚ
deriving DecidableEq

/-- EmulationThread.set_action (gui.py lines 117-119). -/
def EmulThread.set_action (t : EmulThread) (action : Nat) : EmulThread :=
  { t with current_action := action }

/-- EmulationThread.set_fastforward_speed (gui.py lines 148-150):
the stored multiplier is max(1.0, speed). -/
def EmulThread.set_fastforward_speed (t : EmulThread) (speed : ℚ) : EmulThread :=
  { t with fastforward_speed := max 1 speed }

/-- EmulationThread.toggle_fastforward (gui.py lines 144-146). -/
def EmulThread.toggle_fastforward (t : EmulThread) : EmulThread :=
  { t with fastforward := !t.fastforward }

/-- The effective frame interval computed at the top of each loop
iteration (gui.py lines 72-75): frame_duration divided by the
fastforward multiplier while fastforward is on, frame_duration
otherwise. -/
def EmulThread.current_frame_duration (t : EmulThread) : ℚ :=
  if t.fastforward then t.frame_duration / t.fastforward_speed
  else t.frame_duration

/-- EmulationThread.stop (gui.py lines 156-159): clears the cooperative
running flag, then calls self.wait() with no argument, a join without a
timeout. The returned list records the join calls made. -/
def EmulThread.stop (t : EmulThread) : EmulThread × List JoinCall :=
  ({ t with running := false }, [JoinCall.unbounded])

/-- Construction plus startup of an EmulationThread for a ROM:
the constructor defaults (gui.py lines 35-50) with the run() entry
(lines 52-60) having allocated a fresh env and set the running flag.
The fresh core contents come from the external ROM, so they are a
parameter. -/
def EmulThread.mk_started (rp : String) (freshCore : CoreState) : EmulThread :=
  { rom_path := rp
    env := some { core := freshCore, backup := none }
    running := true
    paused := false
    fastforward := false
    fastforward_speed := 2
    current_action := 0
    target_fps := 60
    frame_duration := 1 / 60 }

/-- Sets the binding of a key in an association list, dropping any
previous binding for that key (models Python dict assignment). -/
def dictSet {κ α : Type} [BEq κ] (l : List (κ × α)) (k : κ) (v : α) :
    List (κ × α) :=
  (k, v) :: l.filter (fun p => p.1 != k)

/-- The last component of a slash-separated path (models
os.path.basename for paths without a trailing slash). -/
def pathBasename (p : String) : String :=
  (p.splitOn "/").getLastD p

/-- The part of a filename before its last dot (models
os.path.splitext()[0] for names whose final component does not start
with a dot). -/
def pathStem (s : String) : String :=
  match s.splitOn "." with
  | [] => s
  | [x] => x
  | parts => String.intercalate "." parts.dropLast

/-- The GUI state restricted to the fields the scheduler, snapshot
store and dialogs read and write (gui.py lines 533-546). -/
structure Gui where
  rom_path : Option String
  emulation_thread : Option EmulThread
  state_slots : List (Nat × StateData)
  files : List (String × FileContent)
  state_directory : String
deriving DecidableEq

/-- NESendoGUI.is_emulation_running (gui.py lines 1123-1125). -/
def Gui.is_emulation_running (g : Gui) : Bool :=
  match g.emulation_thread with
  | some t => t.running
  | none => false

/-- The live env of the current session, when one exists. -/
def Gui.liveEnv (g : Gui) : Option NESEnv :=
  match g.emulation_thread with
  | some t => t.env
  | none => none

/-- Projection of the live session's RAM image. -/
def Gui.liveRam (g : Gui) : Option (List Nat) :=
  (g.liveEnv).map (fun e => e.core.ram)

/-- Projection of the live session's terminal flag. -/
def Gui.liveDone (g : Gui) : Option Bool :=
  (g.liveEnv).map (fun e => e.core.done)

/-- NESendoGUI.get_state_filename for a slot (gui.py lines 1475-1484). -/
def Gui.get_state_filename (g : Gui) (slot : Nat) : String :=
  let rom_name :=
    match g.rom_path with
    | some rp => if rp = "" then "unknown" else pathStem (pathBasename rp)
    | none => "unknown"
  g.state_directory ++ "/" ++ rom_name ++ "_slot_" ++ toString slot ++ ".state"

/-- NESendoGUI.capture_emulator_state (gui.py lines 1540-1557): records
rom_path plus the env's screen, ram, both controllers and done, with a
capture timestamp; raises (none) when no emulation is running. -/
def Gui.capture_emulator_state (g : Gui) (now : Nat) : Option StateData :=
  match g.emulation_thread with
  | none => none
  | some t =>
    match t.env with
    | none => none
    | some e =>
      some { rom_path := g.rom_path
             screen := some e.core.screen
             ram := some e.core.ram
             controllers := some (e.core.controllers1, e.core.controllers2)
             done := e.core.done
             timestamp := now }

/-- NESendoGUI.restore_emulator_state_from_data (gui.py lines
1575-1595): with a live env it assigns env.done from the record and
nothing else; the RAM, screen and controller fields of the record are
not written to the env. Raises (an error result) when no emulation is
running. -/
def Gui.restore_emulator_state_from_data (g : Gui) (sd : StateData) :
    Gui × Option String :=
  match g.emulation_thread with
  | none => (g, some "No emulation running")
  | some t =>
    match t.env with
    | none => (g, some "No emulation running")
    | some e =>
      let e1 : NESEnv := { e with core := { e.core with done := sd.done } }
      ({ g with emulation_thread := some { t with env := some e1 } }, none)

/-- NESendoGUI.save_state_to_file (gui.py lines 1597-1610) as the
record it serializes: rom_path, ram, controllers, done and timestamp
are copied (the screen is dropped) and a version tag 1.0 is added. -/
def save_state_to_file (sd : StateData) : SerializableState :=
  { rom_path := sd.rom_path
    ram := sd.ram
    controllers := sd.controllers
    done := sd.done
    timestamp := sd.timestamp
    version := "1.0" }

/-- NESendoGUI.load_state_from_file (gui.py lines 1612-1650) on a
well-formed serialized record: the list fields convert back, done and
timestamp are read with defaults, and the result has no screen key. -/
def load_state_from_file (ser : SerializableState) : StateData :=
  { rom_path := ser.rom_path
    screen := none
    ram := ser.ram
    controllers := ser.controllers
    done := ser.done
    timestamp := ser.timestamp }

/-- NESendoGUI.save_state (gui.py lines 1486-1511): with no running
emulation it warns and returns. Otherwise it overwrites the core's
single native backup, captures the state record, stores it in the
in-memory slot dict, and then writes the serialized record to the
slot's state file with open(filename, wb) followed by pickle.dump.
The outcome parameter models that write: on success the file holds
the record; a raise during the dump leaves the file truncated (the
open has already truncated it); a raise in the open leaves the file
untouched. A raising write is caught and surfaced as a critical
dialog, after the slot dict and native backup were already updated. -/
def Gui.save_state (g : Gui) (slot : Nat) (now : Nat) (outcome : WriteOutcome) :
    Gui × Option String :=
  if g.is_emulation_running then
    match g.emulation_thread with
    | none => (g, some "No emulation is currently running.")
    | some t =>
      match t.env with
      | none => (g, some "Failed to save state")
      | some e =>
        let t1 : EmulThread := { t with env := some e._backup }
        let g1 : Gui := { g with emulation_thread := some t1 }
        match g1.capture_emulator_state now with
        | none => (g1, some "Failed to save state")
        | some sd =>
          let g2 : Gui := { g1 with state_slots := dictSet g1.state_slots slot sd }
          match outcome with
          | WriteOutcome.ok =>
            let fc := FileContent.record (save_state_to_file sd)
            let g3 : Gui :=
              { g2 with files := dictSet g2.files (g2.get_state_filename slot) fc }
            (g3, none)
          | WriteOutcome.dumpRaises =>
            let fn := g2.get_state_filename slot
            let g3 : Gui := { g2 with files := dictSet g2.files fn FileContent.truncated }
            (g3, some "Failed to save state")
          | WriteOutcome.openRaises =>
            (g2, some "Failed to save state")
  else
    (g, some "No emulation is currently running.")

/-- NESendoGUI.load_state (gui.py lines 1513-1537): with no running
emulation it warns; with an in-memory record for the slot it invokes
the core's native restore of the single backup; without one it warns
that file-based savestate loading is limited and does nothing. -/
def Gui.load_state (g : Gui) (slot : Nat) : Gui × Option String :=
  if g.is_emulation_running then
    if (g.state_slots.lookup slot).isSome then
      match g.emulation_thread with
      | some t =>
        match t.env with
        | some e =>
          ({ g with emulation_thread := some { t with env := some e._restore } }, none)
        | none => (g, none)
      | none => (g, none)
    else
      (g, some "File-based savestate loading is limited.")
  else
    (g, some "No emulation is currently running.")

/-- NESendoGUI.stop_emulation (gui.py lines 1176-1207): with a thread
present, calls EmulationThread.stop (which joins without a timeout),
then waits up to 2000 ms more if the thread is still running, and
releases the thread reference. The join calls made are returned. -/
def Gui.stop_emulation (g : Gui) : Gui × List JoinCall :=
  match g.emulation_thread with
  | none => (g, [])
  | some t =>
    let r := t.stop
    let joins := r.2 ++ (if r.1.running then [JoinCall.bounded 2000] else [])
    ({ g with emulation_thread := none }, joins)

/-- NESendoGUI.start_emulation (gui.py lines 1127-1174): with no ROM
path loaded (None or empty) it surfaces a warning dialog and returns
without touching the session; otherwise it stops any running session
and starts a fresh emulation thread on the ROM. The fresh core
contents produced by the external ROM load are a parameter. -/
def Gui.start_emulation (g : Gui) (freshCore : CoreState) : Gui × Option String :=
  match g.rom_path with
  | none => (g, some "Please load a ROM file first.")
  | some rp =>
    if rp = "" then (g, some "Please load a ROM file first.")
    else
      let g0 := if g.is_emulation_running then (g.stop_emulation).1 else g
      ({ g0 with emulation_thread := some (EmulThread.mk_started rp freshCore) }, none)

/-- A reply to the ROM-mismatch question dialog. -/
inductive Reply where
  | yes : Reply
  | no : Reply
deriving DecidableEq, Repr

/-- The default button of the ROM-mismatch question dialog (gui.py line
1756 passes QMessageBox.No as the default): the reply taken when the
user dismisses the dialog without an explicit choice. -/
def rom_mismatch_default_reply : Reply := Reply.no

/-- NESendoGUI.load_state_from_file_dialog (gui.py lines 1727-1774):
with no running emulation it warns; with no file chosen it does
nothing; with a chosen file it deserializes it (readFile models the
parse result of the chosen file, none when loading raises), asks the
ROM-mismatch question when the recorded ROM path differs from the
current one and aborts unless the reply is yes, and on proceeding
stores the loaded record in transient slot 0 and invokes the core's
native restore of the single backup. -/
def Gui.load_state_from_file_dialog (g : Gui) (file_path : Option String)
    (readFile : Option SerializableState) (reply : Reply) :
    Gui × Option String :=
  if g.is_emulation_running then
    match file_path with
    | none => (g, none)
    | some _ =>
      match readFile with
      | none => (g, some "Failed to load state from file")
      | some ser =>
        let sd := load_state_from_file ser
        let proceed : Gui × Option String :=
          let g1 : Gui := { g with state_slots := dictSet g.state_slots 0 sd }
          match g1.emulation_thread with
          | some t =>
            match t.env with
            | some e =>
              ({ g1 with emulation_thread := some { t with env := some e._restore } },
               none)
            | none => (g1, none)
          | none => (g1, none)
        if sd.rom_path ≠ g.rom_path then
          match reply with
          | Reply.yes => proceed
          | Reply.no => (g, none)
        else proceed
  else
    (g, some "No emulation is currently running.")

/-- NESendoGUI.init_keymapping (gui.py lines 844-859): the fixed table
from Qt key codes (W, A, S, D, O, P, Return, Space) to controller bit
values. -/
def key_mapping : List (Nat × Nat) :=
  [ (0x57, 16), (0x41, 64), (0x53, 32), (0x44, 128),
    (0x4F, 2), (0x50, 1), (0x01000004, 8), (0x20, 4) ]

/-- The body of the loop in NESendoGUI.update_action (gui.py lines
1071-1074): keys present in the mapping OR their bit value into the
action, keys absent from it are skipped. -/
def applyKey (action : Nat) (key : Nat) : Nat :=
  match key_mapping.lookup key with
  | some v => action ||| v
  | none => action

/-- NESendoGUI.update_action (gui.py lines 1069-1078): recomputes the
action mask from the currently pressed keys, starting from 0. -/
def update_action (pressed : List Nat) : Nat :=
  pressed.foldl applyKey 0

/-- One sample of np.clip(audio_data, -1.0, 1.0) (gui.py line 961). -/
def clipSample (x : ℚ) : ℚ :=
  if x < -1 then -1 else if 1 < x then 1 else x

/-- The first smoothing loop (gui.py lines 966-967) after its first
iteration: each output sample is 0.6 times the input sample plus 0.4
times the previous, already smoothed, sample, carried in prev. The
loop updates the array in place, so the lag-1 neighbour it reads is
the smoothed one. -/
def pass1Aux (prev : ℚ) : List ℚ → List ℚ
  | [] => []
  | x :: xs =>
    let y := 6/10 * x + 4/10 * prev
    y :: pass1Aux y xs

/-- The first smoothing loop (gui.py lines 966-967): it starts at index
1, so the first sample is left alone. -/
def pass1 : List ℚ → List ℚ
  | [] => []
  | x :: xs => x :: pass1Aux x xs

/-- The second smoothing loop (gui.py lines 970-971) from its first
iteration on: each output sample is 0.7 times its input plus 0.3 times
the sample two positions back, already smoothed in place; p2 and p1
carry the previous two output samples. -/
def pass2Aux (p2 p1 : ℚ) : List ℚ → List ℚ
  | [] => []
  | x :: xs =>
    let y := 7/10 * x + 3/10 * p2
    y :: pass2Aux p1 y xs

/-- The second smoothing loop (gui.py lines 970-971): it starts at
index 2, so the first two samples are left alone. -/
def pass2 : List ℚ → List ℚ
  | x0 :: x1 :: xs => x0 :: x1 :: pass2Aux x0 x1 xs
  | xs => xs

/-- Truncation toward zero, the conversion float-to-int16 applies to
each scaled sample. -/
def ratTrunc (q : ℚ) : Int :=
  if 0 ≤ q then ⌊q⌋ else ⌈q⌉

/-- Wrap-around of an integer into the signed 16-bit range, the
astype(np.int16) narrowing. -/
def int16wrap (n : Int) : Int :=
  (n + 32768) % 65536 - 32768

/-- One sample of the quantization step (gui.py line 974): scale by the
fixed headroom factor 24576 and narrow to int16. -/
def quantizeSample (x : ℚ) : Int :=
  int16wrap (ratTrunc (x * 24576))

/-- The float branch of NESendoGUI.play_audio (gui.py lines 959-974) as
a function from the float chunk to the int16 samples written to the
device: clip to the unit range, apply the two smoothing passes only
when the chunk has more than 2 samples, then scale and narrow. -/
def play_audio (chunk : List ℚ) : List Int :=
  let clipped := chunk.map clipSample
  let smoothed := if 2 < clipped.length then pass2 (pass1 clipped) else clipped
  smoothed.map quantizeSample

/-- Modelled from the spec: the audio pipeline as claim C9 states it,
with the two smoothing passes applied to every chunk, not only to
chunks of more than 2 samples. Kept for comparison with play_audio. -/
def play_audio_claimed (chunk : List ℚ) : List Int :=
  (pass2 (pass1 (chunk.map clipSample))).map quantizeSample

/-- Models emulation continuing between two GUI operations: the loop's
core step mutates the live core state of the running session. -/
def Gui.setLiveCore (g : Gui) (c : CoreState) : Gui :=
  match g.emulation_thread with
  | some t =>
    match t.env with
    | some e => { g with emulation_thread := some { t with env := some (e.withCore c) } }
    | none => g
  | none => g

/-- A concrete running emulation thread with fastforward active. -/
def tFF : EmulThread :=
  { rom_path := "game.nes", env := none, running := true, paused := false,
    fastforward := true, fastforward_speed := 2, current_action := 0,
    target_fps := 60, frame_duration := 1 / 60 }

/-- The same thread with fastforward inactive. -/
def tNoFF : EmulThread := { tFF with fastforward := false }

/-- A concrete fresh core state. -/
def coreA : CoreState :=
  { ram := [1, 2], screen := [3], controllers1 := [0], controllers2 := [0],
    done := false }

/-- A second concrete core state, distinct from coreA. -/
def coreB : CoreState :=
  { ram := [8, 8], screen := [6], controllers1 := [1], controllers2 := [0],
    done := false }

/-- A concrete live env holding coreA with no backup taken yet. -/
def envA : NESEnv := { core := coreA, backup := none }

/-- A concrete running emulation thread whose env is envA. -/
def tRun : EmulThread :=
  { rom_path := "game.nes", env := some envA, running := true, paused := false,
    fastforward := false, fastforward_speed := 2, current_action := 0,
    target_fps := 60, frame_duration := 1 / 60 }

/-- A concrete GUI state with a running emulation thread and no saved
slots. -/
def gRun : Gui :=
  { rom_path := some "game.nes", emulation_thread := some tRun,
    state_slots := [], files := [], state_directory := "states" }

/-- A concrete GUI state with a running emulation thread (no env). -/
def gStop : Gui :=
  { rom_path := some "game.nes", emulation_thread := some tFF,
    state_slots := [], files := [], state_directory := "states" }

/-- A GUI state with no ROM loaded. -/
def gNoRom : Gui :=
  { rom_path := none, emulation_thread := none, state_slots := [], files := [],
    state_directory := "states" }

/-- A concrete previously saved state record for slot 2. -/
def sdOld : StateData :=
  { rom_path := some "game.nes", screen := some [9], ram := some [9],
    controllers := some ([9], [9]), done := true, timestamp := 99 }

/-- A concrete GUI state whose slot 2 already holds sdOld. -/
def gC4 : Gui :=
  { rom_path := some "game.nes", emulation_thread := some tRun,
    state_slots := [(2, sdOld)], files := [], state_directory := "states" }

/-- A concrete state record whose serialized fields all differ from the
live session of gRun. -/
def sdC1 : StateData :=
  { rom_path := some "game.nes", screen := some [7], ram := some [5],
    controllers := some ([4], [4]), done := true, timestamp := 3 }

/-- A concrete serialized record captured against a different ROM than
the one gRun runs. -/
def serC10 : SerializableState :=
  { rom_path := some "other.nes", ram := some [5], controllers := some ([4], [4]),
    done := true, timestamp := 3, version := "1.0" }

theorem lookup_dictSet_self {κ α : Type} [BEq κ] [LawfulBEq κ]
    (l : List (κ × α)) (k : κ) (v : α) :
    (dictSet l k v).lookup k = some v := by
  simp [dictSet, List.lookup]

theorem lookup_filter_ne {κ α : Type} [BEq κ] [LawfulBEq κ]
    (l : List (κ × α)) (k k' : κ) (h : k' ≠ k) :
    (l.filter (fun p => p.1 != k)).lookup k' = l.lookup k' := by
  induction l with
  | nil => rfl
  | cons p ps ih =>
    by_cases hp : p.1 = k
    · have h1 : (p.1 != k) = false := by simp [hp]
      have h2 : (k' == p.1) = false := by simp [hp, h]
      simp [List.filter_cons, h1, List.lookup, h2, ih]
    · have h1 : (p.1 != k) = true := by simp [hp]
      by_cases hk : k' = p.1
      · subst hk
        simp [List.filter_cons, h1, List.lookup]
      · have h2 : (k' == p.1) = false := by simp [hk]
        simp [List.filter_cons, h1, List.lookup, h2, ih]

theorem lookup_dictSet_ne {κ α : Type} [BEq κ] [LawfulBEq κ]
    (l : List (κ × α)) (k k' : κ) (v : α) (h : k' ≠ k) :
    (dictSet l k v).lookup k' = l.lookup k' := by
  have hk : (k' == k) = false := by simp [h]
  simp [dictSet, List.lookup, hk, lookup_filter_ne l k k' h]

theorem applyKey_testBit (a k i : Nat) :
    (applyKey a k).testBit i =
      (a.testBit i || ((key_mapping.lookup k).getD 0).testBit i) := by
  unfold applyKey
  cases h : key_mapping.lookup k with
  | none => simp [h]
  | some v => simp [h, Nat.testBit_or]

theorem update_action_aux (pressed : List Nat) (a : Nat) (i : Nat) :
    (pressed.foldl applyKey a).testBit i =
      (a.testBit i || pressed.any (fun k => ((key_mapping.lookup k).getD 0).testBit i)) := by
  induction pressed generalizing a with
  | nil => simp
  | cons k ks ih =>
    simp [List.foldl_cons, List.any_cons, ih, applyKey_testBit, Bool.or_assoc]

/-- Claim C7: for every set of held keys, the recomputed action mask is
the bitwise OR of the bit values of exactly the held keys present in
the mapping (unmapped keys contribute no bits), the empty set gives 0,
and the mapping is a fixed table of exactly 8 entries, one distinct
single-bit value each. -/
theorem C7_action_mask :
    update_action [] = 0
  ∧ (∀ (pressed : List Nat) (i : Nat),
      (update_action pressed).testBit i =
        pressed.any (fun k => ((key_mapping.lookup k).getD 0).testBit i))
  ∧ key_mapping.length = 8
  ∧ ((List.range 8).all
      (fun j => key_mapping.countP (fun p => p.2 == 2 ^ j) == 1)) = true := by
  refine ⟨rfl, ?_, rfl, by decide⟩
  intro pressed i
  simpa [update_action] using update_action_aux pressed 0 i

/-- Claim C8: the stored fastforward multiplier is clamped to a floor
of 1, requests of at least 1 are stored as given, and the scheduler's
effective frame interval is the base interval divided by the stored
multiplier while fastforward is active and the base interval
otherwise. -/
theorem C8_fastforward :
    (∀ (t : EmulThread) (speed : ℚ),
        1 ≤ (t.set_fastforward_speed speed).fastforward_speed)
  ∧ (∀ (t : EmulThread) (speed : ℚ), speed < 1 →
        (t.set_fastforward_speed speed).fastforward_speed = 1)
  ∧ (∀ (t : EmulThread) (speed : ℚ), 1 ≤ speed →
        (t.set_fastforward_speed speed).fastforward_speed = speed)
  ∧ (∀ t : EmulThread, t.fastforward = true →
        t.current_frame_duration = t.frame_duration / t.fastforward_speed)
  ∧ (∀ t : EmulThread, t.fastforward = false →
        t.current_frame_duration = t.frame_duration) := by
  refine ⟨?_, ?_, ?_, ?_, ?_⟩
  · intro t s; exact le_max_left 1 s
  · intro t s h; simp [EmulThread.set_fastforward_speed, max_eq_left h.le]
  · intro t s h; simp [EmulThread.set_fastforward_speed, max_eq_right h]
  · intro t h; simp [EmulThread.current_frame_duration, h]
  · intro t h; simp [EmulThread.current_frame_duration, h]

/-- Witness for claim C8 at concrete inputs. -/
theorem C8_fastforward_witness :
    1 ≤ (tFF.set_fastforward_speed 0).fastforward_speed
  ∧ (tFF.set_fastforward_speed 0).fastforward_speed = 1
  ∧ (tFF.set_fastforward_speed 2).fastforward_speed = 2
  ∧ tFF.current_frame_duration = tFF.frame_duration / tFF.fastforward_speed
  ∧ tNoFF.current_frame_duration = tNoFF.frame_duration :=
  ⟨C8_fastforward.1 tFF 0,
   C8_fastforward.2.1 tFF 0 zero_lt_one,
   C8_fastforward.2.2.1 tFF 2 one_le_two,
   C8_fastforward.2.2.2.1 tFF rfl,
   C8_fastforward.2.2.2.2 tNoFF rfl⟩

/-- Claim C6 counterexample: EmulationThread.stop joins the loop thread
with a single wait call that carries no timeout, so the claim that the
wait of stop has a bounded timeout fails at this concrete thread. -/
theorem C6_counterexample :
    (tFF.stop).2 = [JoinCall.unbounded]
  ∧ ((tFF.stop).2.all JoinCall.isBounded) = false :=
  ⟨rfl, rfl⟩

/-- Claim C6 amended: stop() sets the cooperative exit flag and then
joins the loop thread with a wait that has no timeout (it blocks until
the thread exits); stop_emulation's additional 2000 ms bounded wait is
skipped because that join has already completed, and the thread
reference is then released. -/
theorem C6_stop_amended :
    (∀ t : EmulThread, (t.stop).1.running = false)
  ∧ (∀ t : EmulThread, (t.stop).2 = [JoinCall.unbounded])
  ∧ (∀ (g : Gui) (t : EmulThread), g.emulation_thread = some t →
        (g.stop_emulation).1.emulation_thread = none
      ∧ (g.stop_emulation).2 = [JoinCall.unbounded]) := by
  refine ⟨fun t => rfl, fun t => rfl, ?_⟩
  intro g t h
  constructor <;> simp [Gui.stop_emulation, h, EmulThread.stop]

/-- Witness for the amended claim C6 at a concrete GUI state. -/
theorem C6_stop_amended_witness :
    (gStop.stop_emulation).1.emulation_thread = none
  ∧ (gStop.stop_emulation).2 = [JoinCall.unbounded] :=
  C6_stop_amended.2.2 gStop tFF rfl

/-- Claim C5: starting with no valid ROM identity (no path, or an empty
one) surfaces the warning and returns with the GUI state untouched: no
emulation session is created and nothing is retried. -/
theorem C5_start_requires_rom :
    ∀ (g : Gui) (freshCore : CoreState),
      g.rom_path = none ∨ g.rom_path = some "" →
      g.start_emulation freshCore = (g, some "Please load a ROM file first.") := by
  intro g c h
  rcases h with h | h <;> simp [Gui.start_emulation, h]

/-- Witness for claim C5 at a concrete GUI state with no ROM. -/
theorem C5_start_requires_rom_witness :
    gNoRom.start_emulation coreA = (gNoRom, some "Please load a ROM file first.") :=
  C5_start_requires_rom gNoRom coreA (Or.inl rfl)

/-- Claim C2: for every running session and slot in 1..4, saving the
captured snapshot to that slot and immediately restoring the slot with
no intervening operations reproduces the RAM image, screen, controller
states and terminal flag of the session exactly, through the native
backup/restore path. -/
theorem C2_slot_roundtrip :
    ∀ (g : Gui) (t : EmulThread) (e : NESEnv) (slot : Nat) (now : Nat),
      g.emulation_thread = some t → t.running = true → t.env = some e →
      slot ∈ [1, 2, 3, 4] →
      ∃ t2 e2,
        ((g.save_state slot now WriteOutcome.ok).1.load_state slot).1.emulation_thread = some t2
      ∧ t2.env = some e2
      ∧ e2.core.ram = e.core.ram
      ∧ e2.core.screen = e.core.screen
      ∧ e2.core.controllers1 = e.core.controllers1
      ∧ e2.core.controllers2 = e.core.controllers2
      ∧ e2.core.done = e.core.done := by
  intro g t e slot now ht hr he _
  obtain ⟨grp, gth, gslots, gfiles, gdir⟩ := g
  simp only at ht
  subst ht
  obtain ⟨trp, tenv, trun, tp, tf, tfs, tca, ttf, tfd⟩ := t
  simp only at hr he
  subst hr
  subst he
  simp only [Gui.save_state, Gui.is_emulation_running, Gui.capture_emulator_state,
    Gui.load_state, NESEnv._backup, NESEnv._restore, if_true, Option.getD,
    lookup_dictSet_self, Option.isSome_some, if_pos]
  exact ⟨_, _, rfl, rfl, rfl, rfl, rfl, rfl, rfl⟩

/-- Witness for claim C2 at the concrete running session gRun. -/
theorem C2_slot_roundtrip_witness :
    ∃ t2 e2,
      ((gRun.save_state 1 5 WriteOutcome.ok).1.load_state 1).1.emulation_thread = some t2
    ∧ t2.env = some e2
    ∧ e2.core.ram = envA.core.ram
    ∧ e2.core.screen = envA.core.screen
    ∧ e2.core.controllers1 = envA.core.controllers1
    ∧ e2.core.controllers2 = envA.core.controllers2
    ∧ e2.core.done = envA.core.done :=
  C2_slot_roundtrip gRun tRun envA 1 5 rfl rfl rfl (by decide)

/-- Claim C3: all slots share the core's single native backup: saving
to slot a, letting emulation advance to core state c2, saving to slot
b, and then restoring slot a yields c2, the state captured at the most
recent save, and the live backup slot also holds c2; in particular
when c2 differs from the state captured at slot a's save, the restore
does not reproduce that earlier state. -/
theorem C3_single_backup :
    ∀ (g : Gui) (t : EmulThread) (e : NESEnv) (a b : Nat) (c2 : CoreState)
      (now1 now2 : Nat),
      g.emulation_thread = some t → t.running = true → t.env = some e →
      ∃ t4 e4,
        (((((g.save_state a now1 WriteOutcome.ok).1.setLiveCore c2).save_state b now2 WriteOutcome.ok).1.load_state a).1.emulation_thread = some t4)
      ∧ t4.env = some e4
      ∧ e4.core = c2
      ∧ e4.backup = some c2
      ∧ (c2 ≠ e.core → e4.core ≠ e.core) := by
  intro g t e a b c2 now1 now2 ht hr he
  obtain ⟨grp, gth, gslots, gfiles, gdir⟩ := g
  simp only at ht
  subst ht
  obtain ⟨trp, tenv, trun, tp, tf, tfs, tca, ttf, tfd⟩ := t
  simp only at hr he
  subst hr
  subst he
  have hsome :
      ((dictSet (dictSet gslots a
          { rom_path := grp, screen := some e.core.screen, ram := some e.core.ram,
            controllers := some (e.core.controllers1, e.core.controllers2),
            done := e.core.done, timestamp := now1 }) b
          { rom_path := grp, screen := some c2.screen, ram := some c2.ram,
            controllers := some (c2.controllers1, c2.controllers2),
            done := c2.done, timestamp := now2 }).lookup a).isSome = true := by
    by_cases hab : a = b
    · subst hab
      simp [lookup_dictSet_self]
    · rw [lookup_dictSet_ne _ b a _ hab, lookup_dictSet_self]
      rfl
  simp only [Gui.save_state, Gui.is_emulation_running, Gui.capture_emulator_state,
    Gui.setLiveCore, Gui.load_state, NESEnv._backup, NESEnv._restore,
    NESEnv.withCore, Option.getD, if_true, hsome, if_pos]
  exact ⟨_, _, rfl, rfl, rfl, rfl, fun h => h⟩

/-- Witness for claim C3 at the concrete running session gRun, saving
slot 1, advancing to coreB, saving slot 2, then restoring slot 1. -/
theorem C3_single_backup_witness :
    ∃ t4 e4,
      (((((gRun.save_state 1 5 WriteOutcome.ok).1.setLiveCore coreB).save_state 2 6 WriteOutcome.ok).1.load_state 1).1.emulation_thread = some t4)
    ∧ t4.env = some e4
    ∧ e4.core = coreB
    ∧ e4.backup = some coreB
    ∧ (coreB ≠ envA.core → e4.core ≠ envA.core) :=
  C3_single_backup gRun tRun envA 1 2 coreB 5 6 rfl rfl rfl

/-- Claim C4 counterexample: at the concrete state gC4, whose slot 2
holds sdOld, a save to slot 2 that raises during pickle.dump surfaces
an error but leaves slot 2 holding the newly captured snapshot, not
sdOld, and the file map changed as well (the opened file was truncated
before the dump raised): neither the in-memory slot entry nor the
slot's state file is left unmodified as the claim states. -/
theorem C4_counterexample :
    ((gC4.save_state 2 7 WriteOutcome.dumpRaises).2).isSome = true
  ∧ gC4.state_slots.lookup 2 = some sdOld
  ∧ (gC4.save_state 2 7 WriteOutcome.dumpRaises).1.state_slots.lookup 2 ≠ some sdOld
  ∧ (gC4.save_state 2 7 WriteOutcome.dumpRaises).1.files ≠ gC4.files := by
  refine ⟨rfl, rfl, ?_, ?_⟩ <;> decide

/-- Claim C4 amended: if serialization fails while saving to a slot,
the failure is surfaced but the target slot is not left unmodified:
the in-memory slot entry has by then already been overwritten with the
freshly captured snapshot and the core's single native backup has been
overwritten; moreover, since the slot's state file is opened with mode
wb (truncating it) before pickle.dump runs, a raise during the dump
leaves the state file truncated, and only a raise in the open itself
leaves the file unchanged. -/
theorem C4_amended :
    ∀ (g : Gui) (t : EmulThread) (e : NESEnv) (slot : Nat) (now : Nat)
      (outcome : WriteOutcome),
      g.emulation_thread = some t → t.running = true → t.env = some e →
      outcome ≠ WriteOutcome.ok →
      ((g.save_state slot now outcome).2).isSome = true
    ∧ (g.save_state slot now outcome).1.state_slots.lookup slot =
        some { rom_path := g.rom_path
               screen := some e.core.screen
               ram := some e.core.ram
               controllers := some (e.core.controllers1, e.core.controllers2)
               done := e.core.done
               timestamp := now }
    ∧ (g.save_state slot now outcome).1.liveEnv = some e._backup
    ∧ (outcome = WriteOutcome.dumpRaises →
        (g.save_state slot now outcome).1.files.lookup (g.get_state_filename slot) =
          some FileContent.truncated)
    ∧ (outcome = WriteOutcome.openRaises →
        (g.save_state slot now outcome).1.files = g.files) := by
  intro g t e slot now outcome ht hr he hout
  obtain ⟨grp, gth, gslots, gfiles, gdir⟩ := g
  simp only at ht
  subst ht
  obtain ⟨trp, tenv, trun, tp, tf, tfs, tca, ttf, tfd⟩ := t
  simp only at hr he
  subst hr
  subst he
  cases outcome with
  | ok => exact absurd rfl hout
  | dumpRaises =>
    exact ⟨rfl, lookup_dictSet_self gslots slot _, rfl,
      fun _ => lookup_dictSet_self gfiles _ _,
      fun h => WriteOutcome.noConfusion h⟩
  | openRaises =>
    exact ⟨rfl, lookup_dictSet_self gslots slot _, rfl,
      fun h => WriteOutcome.noConfusion h,
      fun _ => rfl⟩

/-- Witness for the amended claim C4 at the concrete state gC4 with a
write that raises during the dump. -/
theorem C4_amended_witness :
    ((gC4.save_state 2 7 WriteOutcome.dumpRaises).2).isSome = true
  ∧ (gC4.save_state 2 7 WriteOutcome.dumpRaises).1.state_slots.lookup 2 =
      some { rom_path := gC4.rom_path
             screen := some envA.core.screen
             ram := some envA.core.ram
             controllers := some (envA.core.controllers1, envA.core.controllers2)
             done := envA.core.done
             timestamp := 7 }
  ∧ (gC4.save_state 2 7 WriteOutcome.dumpRaises).1.liveEnv = some envA._backup
  ∧ (WriteOutcome.dumpRaises = WriteOutcome.dumpRaises →
      (gC4.save_state 2 7 WriteOutcome.dumpRaises).1.files.lookup
        (gC4.get_state_filename 2) = some FileContent.truncated)
  ∧ (WriteOutcome.dumpRaises = WriteOutcome.openRaises →
      (gC4.save_state 2 7 WriteOutcome.dumpRaises).1.files = gC4.files) :=
  C4_amended gC4 tRun envA 2 7 WriteOutcome.dumpRaises rfl rfl rfl (by decide)

/-- Claim C1 counterexample: the recorded RAM image survives
save_state_to_file then load_state_from_file, but applying the loaded
record with restore_emulator_state_from_data leaves the live session's
RAM at its old value: the recorded RAM field is not applied, so the
degraded round trip does not reproduce every serialized field in the
live session. -/
theorem C1_counterexample :
    (load_state_from_file (save_state_to_file sdC1)).ram = some [5]
  ∧ (gRun.restore_emulator_state_from_data
       (load_state_from_file (save_state_to_file sdC1))).1.liveRam = some [1, 2]
  ∧ some [1, 2] ≠ (some [5] : Option (List Nat)) := by
  refine ⟨rfl, rfl, ?_⟩
  decide

/-- Claim C1 amended: save_state_to_file then load_state_from_file
reproduces the recorded rom_path, RAM, controllers, terminal flag and
timestamp in the record (the screen field is dropped), but applying
the loaded record to the live session writes only the terminal flag:
the live RAM, screen and controller states, and the core's native
backup, are left untouched. -/
theorem C1_degraded_restore_amended :
    ∀ (g : Gui) (t : EmulThread) (e : NESEnv) (sd : StateData),
      g.emulation_thread = some t → t.env = some e →
      (load_state_from_file (save_state_to_file sd)).rom_path = sd.rom_path
    ∧ (load_state_from_file (save_state_to_file sd)).ram = sd.ram
    ∧ (load_state_from_file (save_state_to_file sd)).controllers = sd.controllers
    ∧ (load_state_from_file (save_state_to_file sd)).done = sd.done
    ∧ (load_state_from_file (save_state_to_file sd)).timestamp = sd.timestamp
    ∧ (load_state_from_file (save_state_to_file sd)).screen = none
    ∧ ∃ t1 e1,
        (g.restore_emulator_state_from_data
          (load_state_from_file (save_state_to_file sd))).1.emulation_thread = some t1
      ∧ t1.env = some e1
      ∧ e1.core.done = sd.done
      ∧ e1.core.ram = e.core.ram
      ∧ e1.core.screen = e.core.screen
      ∧ e1.core.controllers1 = e.core.controllers1
      ∧ e1.core.controllers2 = e.core.controllers2
      ∧ e1.backup = e.backup := by
  intro g t e sd ht he
  obtain ⟨grp, gth, gslots, gfiles, gdir⟩ := g
  simp only at ht
  subst ht
  obtain ⟨trp, tenv, trun, tp, tf, tfs, tca, ttf, tfd⟩ := t
  simp only at he
  subst he
  exact ⟨rfl, rfl, rfl, rfl, rfl, rfl, _, _, rfl, rfl, rfl, rfl, rfl, rfl, rfl, rfl⟩

/-- Witness for the amended claim C1 at the concrete session gRun with
the record sdC1. -/
theorem C1_degraded_restore_amended_witness :
    (load_state_from_file (save_state_to_file sdC1)).rom_path = sdC1.rom_path
  ∧ (load_state_from_file (save_state_to_file sdC1)).ram = sdC1.ram
  ∧ (load_state_from_file (save_state_to_file sdC1)).controllers = sdC1.controllers
  ∧ (load_state_from_file (save_state_to_file sdC1)).done = sdC1.done
  ∧ (load_state_from_file (save_state_to_file sdC1)).timestamp = sdC1.timestamp
  ∧ (load_state_from_file (save_state_to_file sdC1)).screen = none
  ∧ ∃ t1 e1,
      (gRun.restore_emulator_state_from_data
        (load_state_from_file (save_state_to_file sdC1))).1.emulation_thread = some t1
    ∧ t1.env = some e1
    ∧ e1.core.done = sdC1.done
    ∧ e1.core.ram = envA.core.ram
    ∧ e1.core.screen = envA.core.screen
    ∧ e1.core.controllers1 = envA.core.controllers1
    ∧ e1.core.controllers2 = envA.core.controllers2
    ∧ e1.backup = envA.backup :=
  C1_degraded_restore_amended gRun tRun envA sdC1 rfl rfl

/-- Claim C10: loading a snapshot file whose recorded ROM identity
differs from the active session's is not blocked automatically: the
mismatch raises a question dialog whose default reply is no, dismissal
or any reply other than yes aborts with the GUI state untouched (the
snapshot is not applied), and only the explicit yes reply lets the
load proceed, storing the record in transient slot 0. -/
theorem C10_rom_mismatch :
    ∀ (g : Gui) (t : EmulThread) (fp : String) (ser : SerializableState)
      (reply : Reply),
      g.emulation_thread = some t → t.running = true →
      (load_state_from_file ser).rom_path ≠ g.rom_path →
      rom_mismatch_default_reply = Reply.no
    ∧ g.load_state_from_file_dialog (some fp) (some ser) Reply.no = (g, none)
    ∧ (reply ≠ Reply.yes →
        g.load_state_from_file_dialog (some fp) (some ser) reply = (g, none))
    ∧ (g.load_state_from_file_dialog (some fp) (some ser) Reply.yes).1.state_slots.lookup 0
        = some (load_state_from_file ser) := by
  intro g t fp ser reply ht hr hne
  obtain ⟨grp, gth, gslots, gfiles, gdir⟩ := g
  simp only at ht
  subst ht
  obtain ⟨trp, tenv, trun, tp, tf, tfs, tca, ttf, tfd⟩ := t
  simp only at hr
  subst hr
  simp only at hne
  refine ⟨rfl, ?_, ?_, ?_⟩
  · simp [Gui.load_state_from_file_dialog, Gui.is_emulation_running, hne]
  · intro hry
    cases reply with
    | yes => exact absurd rfl hry
    | no => simp [Gui.load_state_from_file_dialog, Gui.is_emulation_running, hne]
  · cases htenv : tenv with
    | none =>
      simp [Gui.load_state_from_file_dialog, Gui.is_emulation_running, hne, htenv,
        lookup_dictSet_self]
    | some e =>
      simp [Gui.load_state_from_file_dialog, Gui.is_emulation_running, hne, htenv,
        lookup_dictSet_self]

/-- Witness for claim C10 at the concrete session gRun with the
mismatched record serC10. -/
theorem C10_rom_mismatch_witness :
    rom_mismatch_default_reply = Reply.no
  ∧ gRun.load_state_from_file_dialog (some "f.state") (some serC10) Reply.no = (gRun, none)
  ∧ (Reply.no ≠ Reply.yes →
      gRun.load_state_from_file_dialog (some "f.state") (some serC10) Reply.no = (gRun, none))
  ∧ (gRun.load_state_from_file_dialog (some "f.state") (some serC10) Reply.yes).1.state_slots.lookup 0
      = some (load_state_from_file serC10) :=
  C10_rom_mismatch gRun tRun "f.state" serC10 Reply.no rfl rfl (by decide)

theorem ratTrunc_intCast (n : ℤ) : ratTrunc (n : ℚ) = n := by
  unfold ratTrunc
  by_cases h : (0:ℚ) ≤ (n:ℚ)
  · rw [if_pos h, Int.floor_intCast]
  · rw [if_neg h, Int.ceil_intCast]

theorem int16wrap_bounds (n : ℤ) : -32768 ≤ int16wrap n ∧ int16wrap n ≤ 32767 := by
  unfold int16wrap
  have h1 : 0 ≤ (n + 32768) % 65536 := Int.emod_nonneg _ (by norm_num)
  have h2 : (n + 32768) % 65536 < 65536 := Int.emod_lt_of_pos _ (by norm_num)
  omega

theorem pass1Aux_length (xs : List ℚ) (p : ℚ) :
    (pass1Aux p xs).length = xs.length := by
  induction xs generalizing p with
  | nil => rfl
  | cons x xs ih => simp [pass1Aux, ih]

theorem pass1_length (xs : List ℚ) : (pass1 xs).length = xs.length := by
  cases xs with
  | nil => rfl
  | cons x xs => simp [pass1, pass1Aux_length]

theorem pass1_getD_zero (xs : List ℚ) : (pass1 xs).getD 0 0 = xs.getD 0 0 := by
  cases xs <;> simp [pass1]

theorem pass1Aux_getD (xs : List ℚ) (p : ℚ) (i : Nat) (h : i < xs.length) :
    (pass1Aux p xs).getD i 0 =
      6/10 * xs.getD i 0 + 4/10 * (p :: pass1Aux p xs).getD i 0 := by
  induction xs generalizing p i with
  | nil => simp at h
  | cons x xs ih =>
    cases i with
    | zero => simp [pass1Aux]
    | succ j =>
      have hj : j < xs.length := by simpa using h
      simpa [pass1Aux] using ih (6/10 * x + 4/10 * p) j hj

theorem pass1_getD_succ (xs : List ℚ) (i : Nat) (h : i + 1 < xs.length) :
    (pass1 xs).getD (i+1) 0 =
      6/10 * xs.getD (i+1) 0 + 4/10 * (pass1 xs).getD i 0 := by
  cases xs with
  | nil => simp at h
  | cons x xs =>
    have hx : i < xs.length := by simpa using h
    simpa [pass1] using pass1Aux_getD xs x i hx

theorem pass2Aux_length (xs : List ℚ) (p2 p1 : ℚ) :
    (pass2Aux p2 p1 xs).length = xs.length := by
  induction xs generalizing p2 p1 with
  | nil => rfl
  | cons x xs ih => simp [pass2Aux, ih]

theorem pass2_length (xs : List ℚ) : (pass2 xs).length = xs.length := by
  match xs with
  | [] => rfl
  | [x] => rfl
  | x0 :: x1 :: xs => simp [pass2, pass2Aux_length]

theorem pass2_getD_zero (xs : List ℚ) : (pass2 xs).getD 0 0 = xs.getD 0 0 := by
  match xs with
  | [] => rfl
  | [x] => rfl
  | x0 :: x1 :: xs => simp [pass2]

theorem pass2_getD_one (xs : List ℚ) : (pass2 xs).getD 1 0 = xs.getD 1 0 := by
  match xs with
  | [] => rfl
  | [x] => rfl
  | x0 :: x1 :: xs => simp [pass2]

theorem pass2Aux_getD (xs : List ℚ) (p2 p1 : ℚ) (i : Nat) (h : i < xs.length) :
    (pass2Aux p2 p1 xs).getD i 0 =
      7/10 * xs.getD i 0 + 3/10 * (p2 :: p1 :: pass2Aux p2 p1 xs).getD i 0 := by
  induction xs generalizing p2 p1 i with
  | nil => simp at h
  | cons x xs ih =>
    cases i with
    | zero => simp [pass2Aux]
    | succ j =>
      have hj : j < xs.length := by simpa using h
      simpa [pass2Aux] using ih p1 (7/10 * x + 3/10 * p2) j hj

theorem pass2_getD_succ (xs : List ℚ) (i : Nat) (h : i + 2 < xs.length) :
    (pass2 xs).getD (i+2) 0 =
      7/10 * xs.getD (i+2) 0 + 3/10 * (pass2 xs).getD i 0 := by
  match xs with
  | [] => simp at h
  | [x] =>
    simp only [List.length_cons, List.length_nil] at h
    omega
  | x0 :: x1 :: xs =>
    have hx : i < xs.length := by simpa using h
    simpa [pass2] using pass2Aux_getD xs x0 x1 i hx

/-- Claim C9 counterexample: the two-sample chunk with samples 0 and 1
is clipped and scaled without any smoothing by the code (the smoothing
passes run only on chunks of more than 2 samples), producing 24576 for
the second sample, while the claimed pipeline smooths it to 0.6 and
quantizes to 14745. -/
theorem C9_counterexample :
    play_audio [0, 1] = [0, 24576]
  ∧ play_audio_claimed [0, 1] = [0, 14745]
  ∧ play_audio [0, 1] ≠ play_audio_claimed [0, 1] := by
  have hclip0 : clipSample 0 = 0 := by norm_num [clipSample]
  have hclip1 : clipSample 1 = 1 := by norm_num [clipSample]
  have hq0 : quantizeSample 0 = 0 := by
    have h0 : (0:ℚ) * 24576 = ((0:ℤ) : ℚ) := by norm_num
    rw [quantizeSample, h0, ratTrunc_intCast]
    decide
  have hq1 : quantizeSample 1 = 24576 := by
    have h1 : (1:ℚ) * 24576 = ((24576:ℤ) : ℚ) := by norm_num
    rw [quantizeSample, h1, ratTrunc_intCast]
    decide
  have hq35 : quantizeSample (3/5) = 14745 := by
    have h35 : (3/5 : ℚ) * 24576 = 73728/5 := by norm_num
    have hge : (0:ℚ) ≤ 73728/5 := by norm_num
    have hf : ⌊(73728/5 : ℚ)⌋ = (14745 : ℤ) := by
      rw [Int.floor_eq_iff]
      constructor <;> norm_num
    rw [quantizeSample, ratTrunc, h35, if_pos hge, hf]
    decide
  have hmap : ([0, 1] : List ℚ).map clipSample = [0, 1] := by
    simp [hclip0, hclip1]
  have hpa : play_audio [0, 1] = [0, 24576] := by
    rw [play_audio]
    simp [hmap, hq0, hq1]
  have hpc : play_audio_claimed [0, 1] = [0, 14745] := by
    have hp1 : pass1 [(0:ℚ), 1] = [0, 3/5] := by
      norm_num [pass1, pass1Aux]
    have hp2 : pass2 [(0:ℚ), 3/5] = [0, 3/5] := rfl
    rw [play_audio_claimed, hmap, hp1, hp2]
    simp [hq0, hq35]
  refine ⟨hpa, hpc, ?_⟩
  rw [hpa, hpc]
  decide

/-- Claim C9 amended: on every float chunk the pipeline clips to the
unit range and then scales by the fixed headroom factor 24576, which
is strictly below the int16 full-scale, into the signed 16-bit range;
the two cascaded smoothing passes, with pass 1 replacing sample i by
0.6 times itself plus 0.4 times its already-smoothed predecessor for i
of at least 1, and pass 2 replacing sample i by 0.7 times itself plus
0.3 times the already-smoothed sample two back for i of at least 2,
are applied only to chunks of more than 2 samples; chunks of length at
most 2 are clipped and quantized without smoothing. -/
theorem C9_audio_amended :
    (∀ chunk : List ℚ, 2 < chunk.length →
        play_audio chunk = (pass2 (pass1 (chunk.map clipSample))).map quantizeSample)
  ∧ (∀ chunk : List ℚ, chunk.length ≤ 2 →
        play_audio chunk = (chunk.map clipSample).map quantizeSample)
  ∧ (∀ xs : List ℚ, (pass1 xs).length = xs.length ∧ (pass1 xs).getD 0 0 = xs.getD 0 0)
  ∧ (∀ (xs : List ℚ) (i : Nat), i + 1 < xs.length →
        (pass1 xs).getD (i+1) 0 = 6/10 * xs.getD (i+1) 0 + 4/10 * (pass1 xs).getD i 0)
  ∧ (∀ xs : List ℚ, (pass2 xs).length = xs.length
        ∧ (pass2 xs).getD 0 0 = xs.getD 0 0 ∧ (pass2 xs).getD 1 0 = xs.getD 1 0)
  ∧ (∀ (xs : List ℚ) (i : Nat), i + 2 < xs.length →
        (pass2 xs).getD (i+2) 0 = 7/10 * xs.getD (i+2) 0 + 3/10 * (pass2 xs).getD i 0)
  ∧ (24576 : ℤ) < 32768
  ∧ (∀ x : ℚ, -32768 ≤ quantizeSample x ∧ quantizeSample x ≤ 32767) := by
  refine ⟨?_, ?_, ?_, pass1_getD_succ, ?_, pass2_getD_succ, by decide, ?_⟩
  · intro c h
    simp only [play_audio, List.length_map, if_pos h]
  · intro c h
    have h2 : ¬ 2 < c.length := Nat.not_lt.mpr h
    simp only [play_audio, List.length_map, if_neg h2]
  · exact fun xs => ⟨pass1_length xs, pass1_getD_zero xs⟩
  · exact fun xs => ⟨pass2_length xs, pass2_getD_zero xs, pass2_getD_one xs⟩
  · exact fun x => int16wrap_bounds (ratTrunc (x * 24576))

/-- Witness for the amended claim C9 at concrete chunks. -/
theorem C9_audio_amended_witness :
    play_audio [0, 0, 1] = (pass2 (pass1 (([0, 0, 1] : List ℚ).map clipSample))).map quantizeSample
  ∧ play_audio [0, 1] = (([0, 1] : List ℚ).map clipSample).map quantizeSample
  ∧ (pass1 [(0:ℚ), 1]).getD 1 0 =
      6/10 * [(0:ℚ), 1].getD 1 0 + 4/10 * (pass1 [(0:ℚ), 1]).getD 0 0
  ∧ (pass2 [(0:ℚ), 1, 1]).getD 2 0 =
      7/10 * [(0:ℚ), 1, 1].getD 2 0 + 3/10 * (pass2 [(0:ℚ), 1, 1]).getD 0 0 :=
  ⟨C9_audio_amended.1 [0, 0, 1] (by decide),
   C9_audio_amended.2.1 [0, 1] (by decide),
   C9_audio_amended.2.2.2.1 [(0:ℚ), 1] 0 (by decide),
   C9_audio_amended.2.2.2.2.2.1 [(0:ℚ), 1, 1] 0 (by decide)⟩

end NESendo
